import Mathlib

/-!
# Verification of the electron-bar-graph input/geometry/color pipeline

Shallow embedding of `build/renderer.js`: the input parser
(`parseInputValues`), the bar-geometry computations of `drawGraph` and
`exportSVG`, the color generators (`generateColors`,
`generateGradientColors`, `generateRainbowColors`, `hexToRgb`) and the
configuration loader (`loadConfiguration`).

JavaScript numbers that can be `NaN` or infinite are modelled by `JsNum`;
finite values are exact rationals (no claim below depends on float64
rounding).  Strings are Lean strings; `String.prototype.split(",")`,
`trim`, `parseFloat` and the two regexes the renderer uses are modelled
character by character.
-/

section RatReducible

/- Batteries marks the rational operations `@[irreducible]`, which blocks
`decide` from evaluating concrete geometry; restore the default
reducibility for this development so concrete inputs compute. -/
attribute [local semireducible] Rat.add Rat.mul Rat.sub Rat.inv

namespace BarGraph

/-- A JavaScript number as produced by `parseFloat`: `NaN`, `±Infinity`,
or a finite value (kept exact as a rational). -/
inductive JsNum where
  | nan : JsNum
  | posInf : JsNum
  | negInf : JsNum
  | fin : ℚ → JsNum
deriving DecidableEq

/-- JavaScript `isNaN` on a number. -/
def JsNum.isNaN : JsNum → Bool
  | .nan => true
  | _ => false

/-- The number is not negative (`NaN` is neither). -/
def JsNum.nonneg : JsNum → Bool
  | .nan => false
  | .posInf => true
  | .negInf => false
  | .fin q => decide (0 ≤ q)

/-- JavaScript `Math.max(0, v)`: `NaN` propagates, `-Infinity` is absorbed. -/
def jsMax0 : JsNum → JsNum
  | .nan => .nan
  | .posInf => .posInf
  | .negInf => .fin 0
  | .fin q => .fin (max 0 q)

/-- Helper for `String.prototype.split(",")`: walks the characters,
cutting at every comma; the accumulator holds the current field reversed. -/
def splitCommaAux : List Char → List Char → List String
  | [], acc => [String.mk acc.reverse]
  | c :: cs, acc =>
    if c = ',' then String.mk acc.reverse :: splitCommaAux cs []
    else splitCommaAux cs (c :: acc)

/-- JavaScript `s.split(",")`.  Splitting the empty string yields `[""]`,
and a trailing comma yields a trailing empty field, exactly as in JS. -/
def jsSplitComma (s : String) : List String :=
  splitCommaAux s.data []

/-- JavaScript `s.trim()`: strip leading and trailing whitespace. -/
def jsTrim (s : String) : String :=
  String.mk (((s.data.dropWhile Char.isWhitespace).reverse.dropWhile
    Char.isWhitespace).reverse)

/-- Value of a list of decimal digit characters. -/
def digitsToNat (ds : List Char) : ℕ :=
  ds.foldl (fun n c => 10 * n + (c.toNat - 48)) 0

/-- Exponent part of a decimal literal: an optional sign followed by
digits; if no digit follows, `parseFloat`'s longest valid prefix stops
before the `e`, i.e. the exponent contributes a factor of `10^0`. -/
def expPart (cs : List Char) : ℤ :=
  let (eneg, cs1) :=
    match cs with
    | '-' :: rest => (true, rest)
    | '+' :: rest => (false, rest)
    | _ => (false, cs)
  let ds := cs1.takeWhile Char.isDigit
  if ds.isEmpty then 0
  else if eneg then -(digitsToNat ds : ℤ) else (digitsToNat ds : ℤ)

/-- ECMAScript `parseFloat` on the characters of a string: skip leading
whitespace, optional sign, then either the literal `Infinity` or a
decimal mantissa with optional fraction and exponent; the longest valid
prefix is taken and trailing garbage is ignored; if no prefix parses the
result is `NaN`.  Finite values are kept exact (float64 rounding is not
modelled; no claim depends on it). -/
def parseFloatChars (cs0 : List Char) : JsNum :=
  let cs := cs0.dropWhile Char.isWhitespace
  let (neg, cs) :=
    match cs with
    | '-' :: rest => (true, rest)
    | '+' :: rest => (false, rest)
    | _ => (false, cs)
  if cs.take 8 = "Infinity".data then
    if neg then .negInf else .posInf
  else
    let ip := cs.takeWhile Char.isDigit
    let cs1 := cs.dropWhile Char.isDigit
    let fp :=
      match cs1 with
      | '.' :: rest => rest.takeWhile Char.isDigit
      | _ => []
    if ip.isEmpty && fp.isEmpty then .nan
    else
      let cs2 :=
        match cs1 with
        | '.' :: rest => rest.dropWhile Char.isDigit
        | _ => cs1
      let ex : ℤ :=
        match cs2 with
        | 'e' :: rest => expPart rest
        | 'E' :: rest => expPart rest
        | _ => 0
      let mant : ℚ := (digitsToNat ip : ℚ) + (digitsToNat fp : ℚ) / (10 ^ fp.length : ℚ)
      let v : ℚ := mant * (10 : ℚ) ^ ex
      .fin (if neg then -v else v)

/-- JavaScript `parseFloat` on a string. -/
def parseFloat (s : String) : JsNum :=
  parseFloatChars s.data

/-- The value list of `parseInputValues`:
`valueText.split(",").map(x => parseFloat(x.trim())).filter(v => !isNaN(v))`
followed by `dataValues.map(v => Math.max(0, v))`. -/
def parsedValues (valueText : String) : List JsNum :=
  (((jsSplitComma valueText).map (fun x => parseFloat (jsTrim x))).filter
    (fun v => !v.isNaN)).map jsMax0

/-- The label list of `parseInputValues`:
`labelText.split(",").map(x => x.trim())` — all tokens kept, including
empty ones. -/
def parsedLabels (labelText : String) : List String :=
  (jsSplitComma labelText).map jsTrim

/-- The error message displayed on a value/label count mismatch. -/
def countMismatchMsg : String :=
  "Error: Number of values must match the number of labels."

/-- The error message of the `catch` branch of `parseInputValues`. -/
def invalidInputMsg : String :=
  "Invalid input. Please ensure all values are numbers."

/-- Result of `parseInputValues`; `errorMsg` models the string passed to
`displayError` (cleared to `""` at the start of every call). -/
structure ParseResult where
  dataValues : List JsNum
  labels : List String
  hasError : Bool
  errorMsg : String
deriving DecidableEq

/-- The function `parseInputValues` from `renderer.js`: split/trim/parseFloat/filter
the values, clamp them at zero, split/trim the labels, then compare
counts.  Every operation in the JS `try` block (`split`, `map`, `trim`,
`parseFloat`, `filter`, `Math.max`) is total on strings and numbers, so
the `catch` branch never runs and is not modelled. -/
def parseInputValues (valueText labelText : String) : ParseResult :=
  let dataValues := parsedValues valueText
  let labels := parsedLabels labelText
  if dataValues.length ≠ labels.length then
    { dataValues := [], labels := [], hasError := true,
      errorMsg := countMismatchMsg }
  else
    { dataValues := dataValues, labels := labels, hasError := false,
      errorMsg := "" }

/-! ## Bar geometry: `drawGraph` and `exportSVG`

Both functions compute, for a non-empty value list, a bar width, a
running x-offset per bar, and a height `value * scale` per bar.  Series
values are the finite, validated numbers of a parsed Series, modelled as
exact rationals.  Only the geometry is embedded; the actual canvas calls
and SVG string concatenation consume it unchanged. -/

/-- JavaScript `Math.max(...dataValues)` for the non-empty lists these renderers
reach (both return before this point when the list is empty; the `[]`
case below is that unreachable branch, JS would give `-Infinity`). -/
def jsMaxList : List ℚ → ℚ
  | [] => 0
  | x :: xs => xs.foldl max x

/-- The per-bar x offsets: the loop starts at `sidePadding` and advances
`xOffset` by `barWidth + barSpacing` after each bar. -/
def xOffsetsFrom (start step : ℚ) : ℕ → List ℚ
  | 0 => []
  | n + 1 => start :: xOffsetsFrom (start + step) step n

/-- The geometry both renderers derive from a value list. -/
structure GraphGeometry where
  barWidth : ℚ
  xOffsets : List ℚ
  barHeights : List ℚ
  scale : ℚ
  maxValue : ℚ
deriving DecidableEq

/-- The geometry computed by `drawGraph(dataValues, labels)` on a canvas
of the given dimensions (`canvas.width`/`canvas.height`; the default
canvas is 760×400).  `none` models the early `return` on an empty value
list: nothing is drawn and nothing is thrown.  Note the clamp
`if (barWidth <= 0) barWidth = 1`. -/
def drawGraphGeometry (canvasWidth canvasHeight : ℚ) (dataValues : List ℚ) :
    Option GraphGeometry :=
  if dataValues.length = 0 then none
  else
    let topPadding : ℚ := 30
    let bottomPadding : ℚ := 40
    let sidePadding : ℚ := 30
    let graphWidth := canvasWidth - 2 * sidePadding
    let graphHeight := canvasHeight - topPadding - bottomPadding
    let numBars := dataValues.length
    let barSpacing : ℚ := 10
    let availableWidthForBars := graphWidth - ((numBars : ℚ) - 1) * barSpacing
    let barWidth0 := if 0 < numBars then availableWidthForBars / (numBars : ℚ) else 0
    let barWidth := if barWidth0 ≤ 0 then 1 else barWidth0
    let maxValue := jsMaxList dataValues
    let scale := graphHeight / (if 0 < maxValue then maxValue else 1)
    some { barWidth := barWidth,
           xOffsets := xOffsetsFrom sidePadding (barWidth + barSpacing) numBars,
           barHeights := dataValues.map (fun v => v * scale),
           scale := scale,
           maxValue := maxValue }

/-- The geometry computed by `exportSVG` for its `<rect>` elements, at
the hard-coded 760×400 SVG dimensions.  Same paddings, spacing and scale
as `drawGraph`, but `barWidth = availableWidthForBars / numBars` is used
as computed — `exportSVG` has no `barWidth <= 0` clamp. -/
def exportSVGGeometry (dataValues : List ℚ) : Option GraphGeometry :=
  if dataValues.length = 0 then none
  else
    let svgWidth : ℚ := 760
    let svgHeight : ℚ := 400
    let topPadding : ℚ := 30
    let bottomPadding : ℚ := 40
    let sidePadding : ℚ := 30
    let graphWidth := svgWidth - 2 * sidePadding
    let graphHeight := svgHeight - topPadding - bottomPadding
    let numBars := dataValues.length
    let barSpacing : ℚ := 10
    let availableWidthForBars := graphWidth - ((numBars : ℚ) - 1) * barSpacing
    let barWidth := availableWidthForBars / (numBars : ℚ)
    let maxValue := jsMaxList dataValues
    let scale := graphHeight / (if 0 < maxValue then maxValue else 1)
    some { barWidth := barWidth,
           xOffsets := xOffsetsFrom sidePadding (barWidth + barSpacing) numBars,
           barHeights := dataValues.map (fun v => v * scale),
           scale := scale,
           maxValue := maxValue }

/-! ## Color generation -/

/-- An RGB triple as produced by `hexToRgb` (channels 0–255; kept as
integers so gradient interpolation arithmetic is direct). -/
structure Rgb where
  r : ℤ
  g : ℤ
  b : ℤ
deriving DecidableEq

/-- A hexadecimal digit, as matched by the `[a-f\d]` class (case
insensitive). -/
def isHexDigitCI (c : Char) : Bool :=
  c.isDigit || ('a' ≤ c && c ≤ 'f') || ('A' ≤ c && c ≤ 'F')

/-- Numeric value of a hexadecimal digit. -/
def hexDigitVal (c : Char) : ℕ :=
  if c.isDigit then c.toNat - 48
  else if 'a' ≤ c && c ≤ 'f' then c.toNat - 87
  else c.toNat - 55

/-- The function `hexToRgb`: the anchored regex `/^#?([a-f\d]{2})([a-f\d]{2})([a-f\d]{2})$/i`
— an optional leading `#`, then exactly six hex digits; anything else
(3-digit shorthand, named colors, malformed strings) yields `null`. -/
def hexToRgb (hex : String) : Option Rgb :=
  let cs :=
    match hex.data with
    | '#' :: rest => rest
    | cs => cs
  match cs with
  | [a, b, c, d, e, f] =>
    if isHexDigitCI a && isHexDigitCI b && isHexDigitCI c && isHexDigitCI d &&
        isHexDigitCI e && isHexDigitCI f then
      some { r := (16 * hexDigitVal a + hexDigitVal b : ℕ),
             g := (16 * hexDigitVal c + hexDigitVal d : ℕ),
             b := (16 * hexDigitVal e + hexDigitVal f : ℕ) }
    else none
  | _ => none

/-- JavaScript `Math.round`: round half away from... in fact JS rounds
half up (`Math.round(x) = floor(x + 0.5)`). -/
def jsRound (q : ℚ) : ℤ := ⌊q + 1 / 2⌋

/-- One interpolated gradient entry: ratio `0` when `steps === 1`, else
`i / (steps - 1)`, applied to each channel through `Math.round`. -/
def gradientStep (c1 c2 : Rgb) (steps i : ℕ) : Rgb :=
  let ratio : ℚ := if steps = 1 then 0 else (i : ℚ) / ((steps : ℚ) - 1)
  { r := jsRound ((c1.r : ℚ) + ((c2.r : ℚ) - (c1.r : ℚ)) * ratio),
    g := jsRound ((c1.g : ℚ) + ((c2.g : ℚ) - (c1.g : ℚ)) * ratio),
    b := jsRound ((c1.b : ℚ) + ((c2.b : ℚ) - (c1.b : ℚ)) * ratio) }

/-- The interpolated RGB triples of `generateGradientColors`, one per
loop iteration `i = 0 .. steps-1`. -/
def gradientRgb (c1 c2 : Rgb) (steps : ℕ) : List Rgb :=
  (List.range steps).map (gradientStep c1 c2 steps)

/-- The template string `` `rgb(${r}, ${g}, ${b})` `` (note the space
after each comma). -/
def rgbString (c : Rgb) : String :=
  "rgb(" ++ toString c.r ++ ", " ++ toString c.g ++ ", " ++ toString c.b ++ ")"

/-- The function `generateGradientColors(color1, color2, steps)`.  `none` models the
`TypeError` the JS code would throw dereferencing the `null` returned by
`hexToRgb` for a malformed color. -/
def generateGradientColors (color1 color2 : String) (steps : ℕ) :
    Option (List String) :=
  match hexToRgb color1, hexToRgb color2 with
  | some c1, some c2 => some ((gradientRgb c1 c2 steps).map rgbString)
  | _, _ => none

/-- Decimal rendering of a JS number interpolated into a template
literal.  Exact for integral values — the only values the claims below
interpolate; the shortest-round-trip float64 formatting JS applies to
non-integral values is outside this embedding and marked by an explicit
fraction. -/
def ratToJsString (q : ℚ) : String :=
  if q.den = 1 then toString q.num
  else toString q.num ++ "/" ++ toString q.den

/-- The function `generateRainbowColors(count)`: hue `(i * 360) / count`, template
`` `hsl(${hue}, 70%, 50%)` `` (note the space after each comma). -/
def generateRainbowColors (count : ℕ) : List String :=
  (List.range count).map
    (fun (i : ℕ) =>
      "hsl(" ++ ratToJsString (((i : ℚ) * 360) / (count : ℚ)) ++ ", 70%, 50%)")

/-- The custom palette: `customColors.value.split(",").map(c => c.trim())`. -/
def customColorList (customColorsValue : String) : List String :=
  (jsSplitComma customColorsValue).map jsTrim

/-- The `custom` branch of `generateColors`: take the first `count`
palette entries if enough were supplied, otherwise cycle the palette
with modulo indexing. -/
def customColors (customColorsValue : String) (count : ℕ) : List String :=
  let customColorListV := customColorList customColorsValue
  if count ≤ customColorListV.length then customColorListV.take count
  else (List.range count).map
    (fun i => customColorListV.getD (i % customColorListV.length) "")

/-- The function `generateColors(count)` with the control values it reads
(`colorMode.value`, `primaryColor.value`, `secondaryColor.value`,
`customColors.value`) passed explicitly.  The `single` and `default`
branches are `Array(count).fill(primary)`. -/
def generateColors (mode primary secondary customColorsValue : String)
    (count : ℕ) : Option (List String) :=
  if mode = "single" then some (List.replicate count primary)
  else if mode = "gradient" then generateGradientColors primary secondary count
  else if mode = "rainbow" then some (generateRainbowColors count)
  else if mode = "custom" then some (customColors customColorsValue count)
  else some (List.replicate count primary)

/-! ## Configuration loading -/

/-- Flags on `window`: `none` models an `undefined` window property. -/
structure ConfigFlags where
  emacsIntegration : Option Bool
  debug : Option Bool
  verbose : Option Bool
deriving DecidableEq

/-- The defaults `loadConfiguration` assigns when `config.h` does not
exist (and in its `catch` branch): `EMACS_INTEGRATION=1, DEBUG=0,
VERBOSE=0`. -/
def defaultFlags : ConfigFlags :=
  { emacsIntegration := some true, debug := some false, verbose := some false }

/-- Attempt to match the regex `#define KEY\s+(\d+)` at the very start of
`cs` (with `pat` the literal part `#define KEY`); returns the digit
capture. -/
def matchDefineHere (pat cs : List Char) : Option (List Char) :=
  match pat, cs with
  | p :: ps, c :: cs => if c = p then matchDefineHere ps cs else none
  | _ :: _, [] => none
  | [], cs =>
    let ws := cs.takeWhile Char.isWhitespace
    let rest := cs.dropWhile Char.isWhitespace
    if ws.isEmpty then none
    else
      let ds := rest.takeWhile Char.isDigit
      if ds.isEmpty then none else some ds

/-- Leftmost match of `#define KEY\s+(\d+)` in the text, as
`content.match(...)` finds it. -/
def searchDefine (pat : List Char) : List Char → Option (List Char)
  | [] => none
  | c :: cs =>
    match matchDefineHere pat (c :: cs) with
    | some ds => some ds
    | none => searchDefine pat cs

/-- The call `configContent.match(/#define KEY\s+(\d+)/)`, returning the first
capture group. -/
def matchDefine (key content : String) : Option String :=
  (searchDefine ("#define " ++ key).data content.data).map String.mk

/-- The function `loadConfiguration`: when `config.h` exists (`some content`), each of
the three keys found in it sets its `window` flag to `digits === "1"`,
and a key that does not match leaves its flag untouched; when the file
is missing (`none`, also covering the `catch` branch for filesystem
errors) all three flags are set to the defaults. -/
def loadConfiguration (configFile : Option String) (w : ConfigFlags) :
    ConfigFlags :=
  match configFile with
  | some content =>
    let w :=
      match matchDefine "EMACS_INTEGRATION" content with
      | some d => { w with emacsIntegration := some (d == "1") }
      | none => w
    let w :=
      match matchDefine "DEBUG" content with
      | some d => { w with debug := some (d == "1") }
      | none => w
    let w :=
      match matchDefine "VERBOSE" content with
      | some d => { w with verbose := some (d == "1") }
      | none => w
    w
  | none => defaultFlags

/-! ## Helper lemmas -/

/-- JavaScript `split` never returns an empty array: even the empty string produces
one (empty) field. -/
theorem splitCommaAux_ne_nil (cs acc : List Char) : splitCommaAux cs acc ≠ [] := by
  induction cs generalizing acc with
  | nil => simp [splitCommaAux]
  | cons c cs ih =>
    by_cases h : c = ','
    · simp [splitCommaAux, h]
    · simpa [splitCommaAux, h] using ih (c :: acc)

theorem jsSplitComma_ne_nil (s : String) : jsSplitComma s ≠ [] :=
  splitCommaAux_ne_nil s.data []

theorem customColorList_length_pos (s : String) :
    0 < (customColorList s).length := by
  rw [customColorList, List.length_map]
  exact List.length_pos.mpr (jsSplitComma_ne_nil s)

/-- JavaScript `Math.max(0, v)` of a non-`NaN` number is a non-`NaN`, non-negative
number. -/
theorem jsMax0_not_nan (v : JsNum) (h : v.isNaN = false) :
    (jsMax0 v).isNaN = false ∧ (jsMax0 v).nonneg = true := by
  cases v <;> simp_all [jsMax0, JsNum.isNaN, JsNum.nonneg, le_max_left]

/-- Every entry of a parsed value list is non-`NaN` (the filter) and
non-negative (the clamp). -/
theorem parsedValues_all_clamped (valueText : String) :
    ((parsedValues valueText).all fun v => !v.isNaN && v.nonneg) = true := by
  rw [List.all_eq_true]
  intro v hv
  simp only [parsedValues, List.mem_map, List.mem_filter] at hv
  obtain ⟨u, ⟨_, hnan⟩, rfl⟩ := hv
  have h := jsMax0_not_nan u (by simpa using hnan)
  simp [h.1, h.2]

theorem foldl_max_all_zero (xs : List ℚ) : ∀ acc : ℚ, acc = 0 →
    (∀ v ∈ xs, v = 0) → xs.foldl max acc = 0 := by
  induction xs with
  | nil => intro acc ha _; simpa using ha
  | cons x xs ih =>
    intro acc ha h
    have hx : x = 0 := h x (List.mem_cons_self x xs)
    rw [List.foldl_cons]
    exact ih (max acc x) (by simp [ha, hx])
      (fun v hv => h v (List.mem_cons_of_mem x hv))

/-- The maximum of an all-zero value list is `0`. -/
theorem jsMaxList_all_zero (values : List ℚ) (h : ∀ v ∈ values, v = 0) :
    jsMaxList values = 0 := by
  cases values with
  | nil => rfl
  | cons x xs =>
    rw [jsMaxList]
    exact foldl_max_all_zero xs x (h x (List.mem_cons_self x xs))
      (fun v hv => h v (List.mem_cons_of_mem x hv))

/-- JavaScript `Math.round` of an integer is that integer. -/
theorem jsRound_intCast (z : ℤ) : jsRound (z : ℚ) = z := by
  have h2 : ⌊(1 / 2 : ℚ)⌋ = 0 := by
    rw [Int.floor_eq_zero_iff]
    norm_num [Set.mem_Ico]
  rw [jsRound, Int.floor_int_add, h2, add_zero]

/-- Characterization of `parseInputValues` on the mismatch branch. -/
theorem parseInputValues_of_ne (valueText labelText : String)
    (h : (parsedValues valueText).length ≠ (parsedLabels labelText).length) :
    parseInputValues valueText labelText =
      { dataValues := [], labels := [], hasError := true,
        errorMsg := countMismatchMsg } := by
  unfold parseInputValues
  simp [h]

/-- Characterization of `parseInputValues` on the success branch. -/
theorem parseInputValues_of_eq (valueText labelText : String)
    (h : (parsedValues valueText).length = (parsedLabels labelText).length) :
    parseInputValues valueText labelText =
      { dataValues := parsedValues valueText, labels := parsedLabels labelText,
        hasError := false, errorMsg := "" } := by
  unfold parseInputValues
  simp [h]

/-! ## Claim theorems -/

/-- C2 (amended): the parser removes every value token that is `NaN`
or unparseable before comparing the value count against the label count
(tokens parsing to `Infinity` are kept, since `isNaN(Infinity)` is
false); in particular parsing the values string `"10,abc,20"` yields
exactly two values, and validation succeeds exactly when two labels are
supplied. -/
theorem parse_filters_nan_before_count_check (valueText labelText : String) :
    ((parsedValues valueText).all fun v => !v.isNaN) = true ∧
    parsedValues "10,abc,20" = [.fin 10, .fin 20] ∧
    ((parseInputValues "10,abc,20" labelText).hasError = false ↔
      (parsedLabels labelText).length = 2) := by
  refine ⟨?_, by decide, ?_⟩
  · rw [List.all_eq_true]
    intro v hv
    have h := parsedValues_all_clamped valueText
    rw [List.all_eq_true] at h
    have hv2 := h v hv
    simp only [Bool.and_eq_true] at hv2
    exact hv2.1
  · have h2 : (parsedValues "10,abc,20").length = 2 := by decide
    by_cases hl : (parsedLabels labelText).length = 2
    · rw [parseInputValues_of_eq _ _ (by omega)]
      simp [hl]
    · rw [parseInputValues_of_ne _ _ (by omega)]
      simp [hl]

/-- C2 counterexample: a value token `Infinity` parses to `Infinity`
and `isNaN(Infinity)` is false, so the token is *not* removed: it
survives into the parsed list, and with one label validation succeeds
with the infinite value still present (the claim would have it removed
before the count comparison, which would then fail 0 vs 1). -/
theorem parse_keeps_infinity_token :
    parsedValues "Infinity" = [.posInf] ∧
    (parseInputValues "Infinity" "A").hasError = false ∧
    (parseInputValues "Infinity" "A").dataValues = [.posInf] := by decide

/-- C5: whenever the count of successfully parsed values differs from
the count of labels, `parseInputValues` reports the count-mismatch error
and returns a result with zero entries — no truncation, padding or
partial alignment. -/
theorem parse_count_mismatch_empties (valueText labelText : String)
    (h : (parsedValues valueText).length ≠ (parsedLabels labelText).length) :
    parseInputValues valueText labelText =
      { dataValues := [], labels := [], hasError := true,
        errorMsg := countMismatchMsg } :=
  parseInputValues_of_ne valueText labelText h

/-- C5 witness: `parse("10,20", "A,B,C")` (2 values vs 3 labels). -/
theorem parse_count_mismatch_empties_witness :
    parseInputValues "10,20" "A,B,C" =
      { dataValues := [], labels := [], hasError := true,
        errorMsg := countMismatchMsg } :=
  parse_count_mismatch_empties "10,20" "A,B,C" (by decide)

/-- C6: for every pair of input strings whose parsed value count
equals the label count, `parseInputValues` succeeds with value and label
lists of equal length and every value neither `NaN` nor negative; in
particular `parse("10,-5,30", "A,B,C")` yields `[10, 0, 30]` (the
negative entry clamped to zero) with no error. -/
theorem parse_equal_counts_success (valueText labelText : String)
    (h : (parsedValues valueText).length = (parsedLabels labelText).length) :
    (parseInputValues valueText labelText).hasError = false ∧
    (parseInputValues valueText labelText).dataValues.length =
      (parseInputValues valueText labelText).labels.length ∧
    ((parseInputValues valueText labelText).dataValues.all
      fun v => !v.isNaN && v.nonneg) = true ∧
    parseInputValues "10,-5,30" "A,B,C" =
      { dataValues := [.fin 10, .fin 0, .fin 30], labels := ["A", "B", "C"],
        hasError := false, errorMsg := "" } := by
  have hres := parseInputValues_of_eq valueText labelText h
  refine ⟨by rw [hres], by rw [hres]; exact h, ?_, by decide⟩
  rw [hres]
  exact parsedValues_all_clamped valueText

/-- C6 witness: equal counts at `parse("10,-5,30", "A,B,C")`. -/
theorem parse_equal_counts_success_witness :
    (parseInputValues "10,-5,30" "A,B,C").hasError = false :=
  (parse_equal_counts_success "10,-5,30" "A,B,C" (by decide)).1

/-- C9: `parseInputValues` reports an error exactly when the number
of successfully parsed values differs from the number of labels, and the
message of the `catch` branch is never displayed: every operation of the
`try` block (`split`, `trim`, `parseFloat`, `filter`, `Math.max`) is
total on strings and numbers, so in this embedding the only error path
is the count comparison. -/
theorem parse_hasError_iff_count_mismatch (valueText labelText : String) :
    ((parseInputValues valueText labelText).hasError = true ↔
      (parsedValues valueText).length ≠ (parsedLabels labelText).length) ∧
    ((parseInputValues valueText labelText).errorMsg == invalidInputMsg) = false := by
  by_cases h : (parsedValues valueText).length = (parsedLabels labelText).length
  · rw [parseInputValues_of_eq _ _ h]
    refine ⟨by simp [h], ?_⟩
    show (("" : String) == invalidInputMsg) = false
    decide
  · rw [parseInputValues_of_ne _ _ h]
    refine ⟨by simp [h], ?_⟩
    show (countMismatchMsg == invalidInputMsg) = false
    decide

/-- C4: in gradient color mode, for `count > 1` the interpolation
ratio for step `i` is `i / (count - 1)`, so the last entry's RGB channels
equal the secondary color exactly; for `count == 1` the ratio is defined
as `0`, so the single entry's RGB channels equal the primary color
exactly, not the midpoint — concretely,
`generateGradientColors("#ff0000", "#0000ff", 1)` is `["rgb(255, 0, 0)"]`. -/
theorem gradient_ratio_endpoints (c1 c2 : Rgb) (steps : ℕ) :
    (1 < steps → (gradientRgb c1 c2 steps)[steps - 1]? = some c2) ∧
    gradientRgb c1 c2 1 = [c1] ∧
    generateGradientColors "#ff0000" "#0000ff" 1 = some ["rgb(255, 0, 0)"] := by
  refine ⟨?_, ?_, by decide⟩
  · intro hs
    obtain ⟨r2, g2, b2⟩ := c2
    have hlt : steps - 1 < steps := Nat.sub_lt (by omega) one_pos
    rw [gradientRgb, List.getElem?_map, List.getElem?_range hlt]
    rw [Option.map_some']
    have hne : steps ≠ 1 := by omega
    have hcast : ((steps - 1 : ℕ) : ℚ) = (steps : ℚ) - 1 := by
      push_cast [Nat.cast_sub (by omega : 1 ≤ steps)]
      ring
    have hden : ((steps : ℚ) - 1) ≠ 0 := by
      have h1 : (1 : ℚ) < (steps : ℚ) := by exact_mod_cast hs
      linarith
    rw [gradientStep, if_neg hne, hcast, div_self hden]
    have er : (c1.r : ℚ) + ((r2 : ℚ) - (c1.r : ℚ)) * 1 = (r2 : ℚ) := by ring
    have eg : (c1.g : ℚ) + ((g2 : ℚ) - (c1.g : ℚ)) * 1 = (g2 : ℚ) := by ring
    have eb : (c1.b : ℚ) + ((b2 : ℚ) - (c1.b : ℚ)) * 1 = (b2 : ℚ) := by ring
    rw [er, eg, eb, jsRound_intCast, jsRound_intCast, jsRound_intCast]
  · obtain ⟨r1, g1, b1⟩ := c1
    rw [gradientRgb, show List.range 1 = [0] from rfl, List.map_cons, List.map_nil]
    rw [gradientStep, if_pos rfl]
    have er : (r1 : ℚ) + ((c2.r : ℚ) - (r1 : ℚ)) * 0 = (r1 : ℚ) := by ring
    have eg : (g1 : ℚ) + ((c2.g : ℚ) - (g1 : ℚ)) * 0 = (g1 : ℚ) := by ring
    have eb : (b1 : ℚ) + ((c2.b : ℚ) - (b1 : ℚ)) * 0 = (b1 : ℚ) := by ring
    rw [er, eg, eb, jsRound_intCast, jsRound_intCast, jsRound_intCast]

/-- C4 witness: a two-step gradient ends exactly on the secondary
color. -/
theorem gradient_ratio_endpoints_witness :
    (gradientRgb ⟨255, 0, 0⟩ ⟨0, 0, 255⟩ 2)[1]? = some ⟨0, 0, 255⟩ :=
  (gradient_ratio_endpoints ⟨255, 0, 0⟩ ⟨0, 0, 255⟩ 2).1 (by omega)

/-- C8 (amended): in rainbow color mode the hue for step `i` of
`count` is `i * 360 / count` degrees with fixed saturation 70% and
lightness 50%, rendered through the template `hsl(${hue}, 70%, 50%)`
— with a space after each comma — so `generateRainbowColors(4)` returns
exactly `["hsl(0, 70%, 50%)", "hsl(90, 70%, 50%)", "hsl(180, 70%, 50%)",
"hsl(270, 70%, 50%)"]`. -/
theorem rainbow_hue_sweep (count : ℕ) :
    (generateRainbowColors count).length = count ∧
    (∀ i : ℕ, (generateRainbowColors count)[i]? =
      if i < count then
        some ("hsl(" ++ ratToJsString (((i : ℚ) * 360) / (count : ℚ)) ++ ", 70%, 50%)")
      else none) ∧
    generateRainbowColors 4 =
      ["hsl(0, 70%, 50%)", "hsl(90, 70%, 50%)", "hsl(180, 70%, 50%)",
       "hsl(270, 70%, 50%)"] := by
  refine ⟨by simp [generateRainbowColors], ?_, by decide⟩
  intro i
  by_cases hi : i < count
  · rw [generateRainbowColors, List.getElem?_map, List.getElem?_range hi,
      Option.map_some', if_pos hi]
  · rw [if_neg hi, generateRainbowColors, List.getElem?_map]
    rw [List.getElem?_eq_none
      (by simpa [List.length_range] using Nat.le_of_not_lt hi : (List.range count).length ≤ i)]
    rfl

/-- C8 counterexample: the claim's exact strings have no space after
the commas, but the renderer's template `hsl(${hue}, 70%, 50%)` puts a
space after each comma, so the returned strings differ from the claimed
ones. -/
theorem rainbow_strings_have_spaces :
    generateRainbowColors 4 =
      ["hsl(0, 70%, 50%)", "hsl(90, 70%, 50%)", "hsl(180, 70%, 50%)",
       "hsl(270, 70%, 50%)"] ∧
    (generateRainbowColors 4 ==
      ["hsl(0,70%,50%)", "hsl(90,70%,50%)", "hsl(180,70%,50%)",
       "hsl(270,70%,50%)"]) = false := by decide

/-- C10: in custom color mode the palette obtained by splitting the
custom-colors text on commas always has at least one element (splitting
the empty string yields one empty token), so the modulo index
`i % list.length` never takes a modulus of zero, and `generateColors`
returns a list of exactly `count` strings for every `count ≥ 0`, each
entry being `list[i % list.length]` — cycling the palette in order when
it has fewer than `count` entries. -/
theorem custom_palette_cycles (primary secondary customColorsValue : String)
    (count : ℕ) :
    0 < (customColorList customColorsValue).length ∧
    generateColors "custom" primary secondary customColorsValue count =
      some (customColors customColorsValue count) ∧
    (customColors customColorsValue count).length = count ∧
    customColors customColorsValue count =
      (List.range count).map
        (fun i => (customColorList customColorsValue).getD
          (i % (customColorList customColorsValue).length) "") := by
  refine ⟨customColorList_length_pos customColorsValue, rfl, ?_, ?_⟩
  · by_cases h : count ≤ (customColorList customColorsValue).length
    · rw [customColors, if_pos h, List.length_take]
      omega
    · rw [customColors, if_neg h, List.length_map, List.length_range]
  · by_cases h : count ≤ (customColorList customColorsValue).length
    · rw [customColors, if_pos h]
      apply List.ext_getElem
      · rw [List.length_take, List.length_map, List.length_range]
        omega
      · intro i h1 h2
        rw [List.getElem_take, List.getElem_map, List.getElem_range]
        have hi : i < count := by
          simpa [List.length_map, List.length_range] using h2
        rw [Nat.mod_eq_of_lt (by omega)]
        rw [List.getD_eq_getElem _ _ (by omega)]
    · rw [customColors, if_neg h]

/-- C3 (amended): configuration loading assigns all three defaults
`EMACS_INTEGRATION=1, DEBUG=0, VERBOSE=0` when the configuration file is
missing (or reading it throws); when the file exists, each key whose
`#define KEY <digits>` line is present is parsed and set, while a key
missing from the file leaves its flag untouched (hence undefined on a
fresh load) — there is no per-key fallback to the defaults. -/
theorem loadConfiguration_defaults_only_on_missing_file (w : ConfigFlags)
    (content : String) :
    loadConfiguration none w = defaultFlags ∧
    (∀ d, matchDefine "EMACS_INTEGRATION" content = some d →
      (loadConfiguration (some content) w).emacsIntegration = some (d == "1")) ∧
    (matchDefine "EMACS_INTEGRATION" content = none →
      (loadConfiguration (some content) w).emacsIntegration = w.emacsIntegration) ∧
    (∀ d, matchDefine "DEBUG" content = some d →
      (loadConfiguration (some content) w).debug = some (d == "1")) ∧
    (matchDefine "DEBUG" content = none →
      (loadConfiguration (some content) w).debug = w.debug) ∧
    (∀ d, matchDefine "VERBOSE" content = some d →
      (loadConfiguration (some content) w).verbose = some (d == "1")) ∧
    (matchDefine "VERBOSE" content = none →
      (loadConfiguration (some content) w).verbose = w.verbose) := by
  cases hE : matchDefine "EMACS_INTEGRATION" content <;>
    cases hD : matchDefine "DEBUG" content <;>
      cases hV : matchDefine "VERBOSE" content <;>
        simp_all [loadConfiguration, defaultFlags]

/-- C3 witness: a file containing only `#define DEBUG 1` sets the
debug flag and leaves the other two untouched. -/
theorem loadConfiguration_defaults_only_on_missing_file_witness :
    (loadConfiguration (some "#define DEBUG 1") ⟨none, none, none⟩).debug =
      some true ∧
    (loadConfiguration (some "#define DEBUG 1") ⟨none, none, none⟩).emacsIntegration =
      none := by
  have h := loadConfiguration_defaults_only_on_missing_file
    ⟨none, none, none⟩ "#define DEBUG 1"
  exact ⟨h.2.2.2.1 "1" (by decide), h.2.2.1 (by decide)⟩

/-- C3 counterexample: the claim says missing keys in an existing
file fall back to the defaults, but on an existing empty `config.h` the
loader leaves all three `window` flags undefined — not
`EMACS_INTEGRATION=1, DEBUG=0, VERBOSE=0`. -/
theorem loadConfiguration_missing_keys_stay_undefined :
    loadConfiguration (some "") ⟨none, none, none⟩ = ⟨none, none, none⟩ ∧
    ((loadConfiguration (some "") ⟨none, none, none⟩).emacsIntegration ==
      some true) = false ∧
    ((loadConfiguration (some "") ⟨none, none, none⟩).debug ==
      some false) = false ∧
    ((loadConfiguration (some "") ⟨none, none, none⟩).verbose ==
      some false) = false := by decide

/-- C7: the geometry computation of `drawGraph` never divides by
zero: the scale divisor is the maximum value when it is positive and `1`
otherwise (and is positive in both cases), so a series of length `n > 0`
whose values are all zero produces every bar height equal to `0`, and an
empty series takes the early return — no bars and no exception. -/
theorem drawGraph_scale_never_divides_by_zero (cw ch : ℚ) (values : List ℚ) :
    drawGraphGeometry cw ch [] = none ∧
    (values ≠ [] → (∀ v ∈ values, v = 0) →
      (drawGraphGeometry cw ch values).map GraphGeometry.barHeights =
        some (List.replicate values.length 0)) ∧
    (values ≠ [] →
      (drawGraphGeometry cw ch values).map GraphGeometry.scale =
        some ((ch - 30 - 40) /
          (if 0 < jsMaxList values then jsMaxList values else 1)) ∧
      0 < (if 0 < jsMaxList values then jsMaxList values else 1)) := by
  refine ⟨rfl, ?_, ?_⟩
  · intro hne hzero
    have hlen : ¬ values.length = 0 := by
      simpa [List.length_eq_zero] using hne
    have hmax : jsMaxList values = 0 := jsMaxList_all_zero values hzero
    rw [drawGraphGeometry, if_neg hlen]
    rw [Option.map_some']
    congr 1
    rw [List.eq_replicate_iff]
    refine ⟨List.length_map values _, ?_⟩
    intro b hb
    rw [List.mem_map] at hb
    obtain ⟨v, hv, rfl⟩ := hb
    rw [hzero v hv, zero_mul]
  · intro hne
    have hlen : ¬ values.length = 0 := by
      simpa [List.length_eq_zero] using hne
    constructor
    · rw [drawGraphGeometry, if_neg hlen]
      rfl
    · by_cases hm : 0 < jsMaxList values
      · rw [if_pos hm]
        exact hm
      · rw [if_neg hm]
        exact one_pos

/-- C7 witness: the all-zero series `[0, 0, 0]` on the default
canvas renders three bars of height `0`. -/
theorem drawGraph_scale_never_divides_by_zero_witness :
    (drawGraphGeometry 760 400 [0, 0, 0]).map GraphGeometry.barHeights =
      some (List.replicate 3 0) :=
  (drawGraph_scale_never_divides_by_zero 760 400 [0, 0, 0]).2.1
    (by decide) (by decide)

/-- C1 (amended): at the default 760×400 dimensions, `drawGraph` and
`exportSVG` compute the same bar height `value * scale` for every entry
count, and the full geometry — `barWidth` and every per-bar x-offset
included — is identical for every entry count `0 < n ≤ 70`, i.e.
whenever the unclamped bar width `(700 - (n-1)*10) / n` is positive; for
`n ≥ 71` `drawGraph` clamps the bar width to `1` while `exportSVG` uses
the unclamped value, and the two renderers diverge. -/
theorem drawGraph_exportSVG_geometry_agree (dataValues : List ℚ) :
    ((drawGraphGeometry 760 400 dataValues).map GraphGeometry.barHeights =
      (exportSVGGeometry dataValues).map GraphGeometry.barHeights) ∧
    (dataValues.length ≤ 70 →
      drawGraphGeometry 760 400 dataValues = exportSVGGeometry dataValues) := by
  constructor
  · by_cases h : dataValues.length = 0
    · simp only [drawGraphGeometry, exportSVGGeometry, if_pos h]
    · simp only [drawGraphGeometry, exportSVGGeometry, if_neg h,
        Option.map_some']
  · intro h70
    by_cases h : dataValues.length = 0
    · simp only [drawGraphGeometry, exportSVGGeometry, if_pos h]
    · have hn : 0 < dataValues.length := Nat.pos_of_ne_zero h
      have hnq : (0 : ℚ) < (dataValues.length : ℚ) := by exact_mod_cast hn
      have h70q : (dataValues.length : ℚ) ≤ 70 := by exact_mod_cast h70
      have hnum : (0 : ℚ) <
          (760 : ℚ) - 2 * 30 - ((dataValues.length : ℚ) - 1) * 10 := by
        nlinarith
      have hpos : (0 : ℚ) <
          ((760 : ℚ) - 2 * 30 - ((dataValues.length : ℚ) - 1) * 10) /
            (dataValues.length : ℚ) := div_pos hnum hnq
      simp only [drawGraphGeometry, exportSVGGeometry, if_neg h, if_pos hn,
        if_neg (not_le.mpr hpos)]

/-- C1 witness: the two geometries coincide entirely on a concrete
two-bar series. -/
theorem drawGraph_exportSVG_geometry_agree_witness :
    drawGraphGeometry 760 400 [5, 10] = exportSVGGeometry [5, 10] :=
  (drawGraph_exportSVG_geometry_agree [5, 10]).2 (by decide)

/-- C1 counterexample: with 71 entries the available width for bars
is exactly `0`, so `drawGraph` clamps its bar width to `1` while
`exportSVG` keeps `0`, and from the second bar on the x-offsets diverge
— refuting the claim for every entry count `n > 0`. -/
theorem drawGraph_exportSVG_barWidth_diverge_at_71 :
    (drawGraphGeometry 760 400 (List.replicate 71 1)).map
      GraphGeometry.barWidth = some 1 ∧
    (exportSVGGeometry (List.replicate 71 1)).map
      GraphGeometry.barWidth = some 0 ∧
    ((drawGraphGeometry 760 400 (List.replicate 71 1)).map
        GraphGeometry.xOffsets ==
      (exportSVGGeometry (List.replicate 71 1)).map
        GraphGeometry.xOffsets) = false := by decide

end BarGraph

end RatReducible
